import Mathlib

/-
Verification of snapraid-runner.py (Trezamere/snapraid-runner).

Shallow embedding conventions:
- Python `str` values that the script inspects character by character
  (subprocess output lines, the accumulated email log, configuration values)
  are modelled as `List Char`; fixed command names stay `String`.
- Machine integers are `Int`/`Nat` (Python ints are unbounded, so no
  wrap-around modelling is needed).
- `subprocess` exit statuses, spawn failures and unanticipated exceptions are
  modelled by the `PhaseOutcome` environment supplied per phase; `finish`
  terminating the process (`sys.exit`) is modelled by a terminal `RunResult`.
-/

namespace SnapraidRunner

/-- Characters stripped by Python `str.strip()` with no argument
(the ASCII whitespace set; the script only meets ASCII here). -/
def isPySpace (c : Char) : Bool :=
  c = ' ' || c = '\t' || c = '\n' || c = '\r' || c = '\x0b' || c = '\x0c'

/-- Python `s.strip()`: remove leading and trailing whitespace. -/
def pyStrip (s : List Char) : List Char :=
  ((s.dropWhile isPySpace).reverse.dropWhile isPySpace).reverse

/-- Python `s.split(sep)` with an explicit one-character separator:
splits on every occurrence and keeps empty pieces, so the result is never
empty (`"".split(" ") == [""]`). -/
def pySplit (sep : Char) : List Char → List (List Char)
  | [] => [[]]
  | c :: rest =>
    if c = sep then [] :: pySplit sep rest
    else
      match pySplit sep rest with
      | [] => [[c]]
      | f :: r => (c :: f) :: r

/-- `tee_log` per-line processing: the logged line and the line appended to
`out_lines`, for one raw line read from the subprocess stream
(src/snapraid-runner.py lines 32-38). The raw line is first
`decode().strip()`-ed; if a carriage return remains embedded, only the text
after the last one is kept (`line.split("\r")[-1]`); the logged copy is
stripped once more (`line.strip()`), the accumulated copy is not. -/
structure TeeLine where
  logged : List Char
  accumulated : List Char
deriving DecidableEq

def tee_line (raw : List Char) : TeeLine :=
  let line := pyStrip raw
  let line := if line.contains '\r' then (pySplit '\r' line).getLastD [] else line
  ⟨pyStrip line, line⟩

/-- The text after the last carriage return of a line, defined directly
(everything from the end up to, not including, the last `'\r'`). Used to
state what `line.split("\r")[-1]` keeps. -/
def afterLastCR (s : List Char) : List Char :=
  (s.reverse.takeWhile (· ≠ '\r')).reverse

/-- Diff counts for the four change categories the script gates on
(spec section 3, `DiffCounts`). -/
structure DiffCounts where
  add : Nat
  remove : Nat
  move : Nat
  update : Nat
deriving DecidableEq

/-- `collections.Counter` over a list of keys, viewed as its lookup
function (missing keys give 0, as `Counter` does). -/
def counter (keys : List (List Char)) : List Char → Nat :=
  fun k => keys.count k

/-- `line.split(" ")[0]`: the text before the first space character. -/
def firstField (line : List Char) : List Char :=
  (pySplit ' ' line).headD []

/-- The diff classifier (src/snapraid-runner.py lines 273-274):
`Counter(line.split(" ")[0] for line in diff_out)` restricted to the four
gating categories, absent categories counting 0. -/
def classify (diff_out : List (List Char)) : DiffCounts :=
  let diff_results := counter (diff_out.map firstField)
  ⟨diff_results "add".toList, diff_results "remove".toList,
   diff_results "move".toList, diff_results "update".toList⟩

/-- The classifier as the claim words it: the category of a line is its
first WHITESPACE-delimited token (as Python `line.split()[0]` would give).
Stated only to compare with `classify`, which the source builds from
`line.split(" ")[0]`. -/
def specFirstToken (line : List Char) : List Char :=
  (line.dropWhile isPySpace).takeWhile (fun c => !isPySpace c)

def specClassify (diff_out : List (List Char)) : DiffCounts :=
  let diff_results := counter (diff_out.map specFirstToken)
  ⟨diff_results "add".toList, diff_results "remove".toList,
   diff_results "move".toList, diff_results "update".toList⟩

/-- Argument vector built by `snapraid_command` (src/snapraid-runner.py
lines 51-55) from the caller-supplied `args` list: the executable and the
command name are inserted at positions 0 and 1, and
`["--conf", <config>, "--verbose"]` is appended. The returned list is the
final state of the caller's list object, which the source mutates in
place. -/
def snapraid_args (executable conf : String) (command : String)
    (args : List String) : List String :=
  ((args.insertIdx 0 executable).insertIdx 1 command)
    ++ ["--conf", conf, "--verbose"]

/-- Effective log-rotation byte cap computed by `setup_logger`
(src/snapraid-runner.py line 194): `min(config["logging"]["maxsize"], 0) * 1024`. -/
def max_log_size (maxsize : Int) : Int :=
  min maxsize 0 * 1024

/-- Value of a nonempty decimal digit string. -/
def decimalVal (ds : List Char) : Nat :=
  ds.foldl (fun acc c => acc * 10 + (c.toNat - '0'.toNat)) 0

/-- Python `int(s)` on a decimal string: surrounding whitespace allowed,
optional sign, then at least one digit; `none` models `ValueError`.
(Underscore digit grouping and non-ASCII digits are not modelled; nothing
in the claims uses them.) -/
def pyInt (s : List Char) : Option Int :=
  let t := pyStrip s
  let signAndDigits : Int × List Char :=
    match t with
    | '-' :: rest => (-1, rest)
    | '+' :: rest => (1, rest)
    | _ => (1, t)
  if signAndDigits.2 ≠ [] ∧ signAndDigits.2.all (·.isDigit) then
    some (signAndDigits.1 * decimalVal signAndDigits.2)
  else none

/-- `load_config` handling of integer options (src/snapraid-runner.py
lines 160-168): `int(value)`, with `ValueError` (in particular the empty
string an absent option reads as) giving 0. -/
def load_int_option (raw : List Char) : Int :=
  (pyInt raw).getD 0

/-- Exceptions that can escape `snapraid_command` into the orchestrator:
`subprocess.CalledProcessError(ret, "snapraid " + command)` for a non-zero
exit status, or any other unanticipated exception. -/
inductive Exn
  | calledProcessError (cmd : String) (returncode : Int)
  | otherException
deriving DecidableEq

/-- What happens when a phase's subprocess is attempted: it spawns and
exits with a status and stdout lines; or `Popen` raises
`FileNotFoundError` (executable missing); or some unanticipated exception
is raised while running the phase. -/
inductive PhaseOutcome
  | completed (returncode : Int) (out : List (List Char))
  | fileNotFound
  | otherExn
deriving DecidableEq

/-- Result of one `snapraid_command` call as seen by its caller: the
captured stdout lines, or `finish(False)` already invoked inside the call
(the `FileNotFoundError` branch, src/snapraid-runner.py line 66), or an
exception propagating out. -/
inductive CmdResult
  | lines (out : List (List Char))
  | finishCalled (success : Bool)
  | exn (e : Exn)
deriving DecidableEq

/-- `snapraid_command` (src/snapraid-runner.py lines 46-80) for a given
phase outcome: a zero exit status, or any status with `ignore_errors`,
returns the captured lines; a non-zero status otherwise raises
`CalledProcessError(ret, "snapraid " + command)`. -/
def snapraid_command (command : String) (ignore_errors : Bool)
    (outcome : PhaseOutcome) : CmdResult :=
  match outcome with
  | .fileNotFound => .finishCalled false
  | .otherExn => .exn .otherException
  | .completed ret out =>
    if ret = 0 ∨ ignore_errors = true then .lines out
    else .exn (.calledProcessError ("snapraid " ++ command) ret)

/-- The configuration fields the orchestrator consults. -/
structure SnapraidConfig where
  configIsFile : Bool
  touch : Bool
  deletethreshold : Int
  scrubEnabled : Bool
deriving DecidableEq

/-- The per-phase subprocess outcomes the environment would produce if the
corresponding phase were invoked. -/
structure Env where
  touchOutcome : PhaseOutcome
  diffOutcome : PhaseOutcome
  syncOutcome : PhaseOutcome
  scrubOutcome : PhaseOutcome
deriving DecidableEq

/-- How `run` terminates: `finish(b)` was called (and `sys.exit` ends the
process), or an exception propagated out of `run` into `main`. -/
inductive RunResult
  | finishedWith (success : Bool)
  | raised (e : Exn)
deriving DecidableEq

/-- Observable trace of one `run`: the snapraid subcommands invoked in
order, whether the delete-threshold gate aborted the run, and how `run`
terminated. -/
structure RunTrace where
  invoked : List String
  gateAborted : Bool
  result : RunResult
deriving DecidableEq

/-- A phase invocation whose exceptions `run` does not catch locally
(touch; diff, which passes `ignore_errors=True`). -/
def phaseStep (command : String) (ignore_errors : Bool)
    (outcome : PhaseOutcome) : Except RunResult (List (List Char)) :=
  match snapraid_command command ignore_errors outcome with
  | .lines out => .ok out
  | .finishCalled b => .error (.finishedWith b)
  | .exn e => .error (.raised e)

/-- A phase invocation wrapped in `try/except subprocess.CalledProcessError`
with `finish(False)` in the handler (sync, scrub; src/snapraid-runner.py
lines 293-297 and 303-310). Other exceptions still propagate. -/
def phaseStepCaught (command : String) (outcome : PhaseOutcome) :
    Except RunResult (List (List Char)) :=
  match snapraid_command command false outcome with
  | .lines out => .ok out
  | .finishCalled b => .error (.finishedWith b)
  | .exn (.calledProcessError _ _) => .error (.finishedWith false)
  | .exn .otherException => .error (.raised .otherException)

/-- Tail of `run` from the scrub phase on (src/snapraid-runner.py
lines 299-313). -/
def runScrub (cfg : SnapraidConfig) (env : Env) (invoked : List String) :
    RunTrace :=
  if cfg.scrubEnabled then
    match phaseStepCaught "scrub" env.scrubOutcome with
    | .error r => ⟨invoked ++ ["scrub"], false, r⟩
    | .ok _ => ⟨invoked ++ ["scrub"], false, .finishedWith true⟩
  else ⟨invoked, false, .finishedWith true⟩

/-- `run` from the diff phase on (src/snapraid-runner.py lines 268-297):
diff with errors ignored, classification, the delete-threshold gate
(`0 <= deletethreshold < remove` aborts via `finish(False)`), the all-zero
skip of sync, else sync. -/
def runFromDiff (cfg : SnapraidConfig) (env : Env) (invoked : List String) :
    RunTrace :=
  match phaseStep "diff" true env.diffOutcome with
  | .error r => ⟨invoked ++ ["diff"], false, r⟩
  | .ok diff_out =>
    let invoked := invoked ++ ["diff"]
    let diff_results := classify diff_out
    if 0 ≤ cfg.deletethreshold ∧ cfg.deletethreshold < (diff_results.remove : Int) then
      ⟨invoked, true, .finishedWith false⟩
    else if diff_results.remove + diff_results.add + diff_results.move
        + diff_results.update = 0 then
      runScrub cfg env invoked
    else
      match phaseStepCaught "sync" env.syncOutcome with
      | .error r => ⟨invoked ++ ["sync"], false, r⟩
      | .ok _ => runScrub cfg env (invoked ++ ["sync"])

/-- `run` (src/snapraid-runner.py lines 253-313): abort if the snapraid
config file is missing, optional touch phase (errors not ignored and not
caught), then the diff phase onward. -/
def run (cfg : SnapraidConfig) (env : Env) : RunTrace :=
  if cfg.configIsFile = false then ⟨[], false, .finishedWith false⟩
  else if cfg.touch then
    match phaseStep "touch" false env.touchOutcome with
    | .error r => ⟨["touch"], false, r⟩
    | .ok _ => runFromDiff cfg env ["touch"]
  else runFromDiff cfg env []

/-- The sequence of `finish(...)` invocations one whole `main` performs
(src/snapraid-runner.py lines 246-250): a `finish` reached inside `run`
terminates the process there (its `sys.exit` raises `SystemExit`, which
`except Exception` does not catch); any other exception escaping `run` is
caught by `main`'s catch-all, which calls `finish(False)`. -/
def mainFinishCalls (cfg : SnapraidConfig) (env : Env) : List Bool :=
  match (run cfg env).result with
  | .finishedWith b => [b]
  | .raised _ => [false]

/-- A phase outcome that raises nothing: spawn succeeded and the exit
status is zero. -/
def outcomeOk (o : PhaseOutcome) : Bool :=
  match o with
  | .completed ret _ => decide (ret = 0)
  | .fileNotFound => false
  | .otherExn => false

/-- The diff subprocess ran to completion (any exit status: diff ignores
errors). -/
def diffCompleted (o : PhaseOutcome) : Bool :=
  match o with
  | .completed _ _ => true
  | _ => false

def diffLines (o : PhaseOutcome) : List (List Char) :=
  match o with
  | .completed _ out => out
  | _ => []

/-- The delete-threshold gate condition, `0 <= deletethreshold < remove`. -/
def gateTrips (threshold : Int) (counts : DiffCounts) : Bool :=
  decide (0 ≤ threshold ∧ threshold < (counts.remove : Int))

/-- Sync is needed when some diff count is non-zero. -/
def syncNeeded (counts : DiffCounts) : Bool :=
  decide (counts.remove + counts.add + counts.move + counts.update ≠ 0)

/-- Flat restatement of "no fatal condition occurred during the run":
the snapraid config file exists, touch (if enabled) succeeded, diff's
subprocess ran, the delete-threshold gate did not trip, sync (if needed)
succeeded, and scrub (if enabled) succeeded. -/
def noFatal (cfg : SnapraidConfig) (env : Env) : Bool :=
  cfg.configIsFile &&
  (!cfg.touch || outcomeOk env.touchOutcome) &&
  diffCompleted env.diffOutcome &&
  (let counts := classify (diffLines env.diffOutcome)
   !gateTrips cfg.deletethreshold counts &&
   (!syncNeeded counts || outcomeOk env.syncOutcome) &&
   (!cfg.scrubEnabled || outcomeOk env.scrubOutcome))

/-- Outcome of the notification attempt inside `finish`: `send_email`
returned, or it raised some exception. -/
inductive EmailOutcome
  | sent
  | raisedExn
deriving DecidableEq

/-- What `finish` does besides logging banners: whether the email-failure
handler ran, and the process exit status. -/
structure FinishResult where
  emailFailureLogged : Bool
  exitCode : Nat
deriving DecidableEq

/-- Python substring test `needle in hay`. -/
def containsSub (hay needle : List Char) : Bool :=
  hay.tails.any (fun t => needle.isPrefixOf t)

/-- `finish` (src/snapraid-runner.py lines 132-147): if the outcome's
keyword ("success" or "error") occurs in the configured `sendon` string,
attempt the email, catching and logging any exception; then exit 0 on
success, 1 on failure. -/
def finish (is_success : Bool) (sendon : List Char)
    (emailOutcome : EmailOutcome) : FinishResult :=
  let attempted := containsSub sendon
    (if is_success then "success".toList else "error".toList)
  ⟨attempted && (match emailOutcome with
                 | .raisedExn => true
                 | .sent => false),
   if is_success then 0 else 1⟩

def emailHeader : List Char :=
  "NOTE: Log was too big for email and was shortened\n\n".toList

def markerPre : List Char :=
  "[...]\n\n\n --- LOG WAS TOO BIG - ".toList

def markerPost : List Char :=
  " LINES REMOVED --\n\n\n[...]".toList

def natDigits (n : Nat) : List Char :=
  (toString n).toList

/-- `log.count("\n", start, end)` counts newlines in the slice. -/
def countNl (s : List Char) : Nat :=
  s.count '\n'

/-- The email-log truncation in `send_email` (src/snapraid-runner.py
lines 100-108) for `maxsize = <config kilobytes> * 1024` bytes: when the
log is longer than `maxsize`, keep the first `maxsize // 2` and the last
`-(-maxsize // 2) = (maxsize + 1) / 2` characters and put between them a
marker naming the number of newlines in the removed middle
(`log.count("\n", maxsize // 2, -maxsize // 2)`). A negative configured
size is not modelled (the claims only concern positive limits). -/
def truncate_email_log (maxsize : Nat) (log : List Char) : List Char :=
  if maxsize ≠ 0 ∧ maxsize < log.length then
    let tailLen := (maxsize + 1) / 2
    let cut_lines :=
      countNl ((log.drop (maxsize / 2)).take (log.length - tailLen - maxsize / 2))
    emailHeader ++ log.take (maxsize / 2)
      ++ markerPre ++ natDigits cut_lines ++ markerPost
      ++ log.drop (log.length - tailLen)
  else log

/-- The body text `send_email` builds (src/snapraid-runner.py
lines 94-109): an outcome banner, then the (possibly truncated) log. -/
def send_email_body (success : Bool) (maxsizeKb : Nat) (log : List Char) :
    List Char :=
  (if success then "SnapRAID job completed successfully:\n\n\n".toList
   else "Error during SnapRAID job:\n\n\n".toList)
    ++ truncate_email_log (maxsizeKb * 1024) log

/-! Helper lemmas. -/

theorem pySplit_ne_nil (sep : Char) (l : List Char) : pySplit sep l ≠ [] := by
  cases l with
  | nil => simp [pySplit]
  | cons c rest =>
    unfold pySplit
    by_cases h : c = sep
    · simp [h]
    · simp only [if_neg h]
      cases pySplit sep rest <;> simp

theorem pySplit_of_not_mem (sep : Char) (l : List Char) (h : sep ∉ l) :
    pySplit sep l = [l] := by
  induction l with
  | nil => rfl
  | cons c rest ih =>
    have hc : ¬ c = sep := fun hc => h (hc ▸ List.mem_cons_self c rest)
    have hr : sep ∉ rest := fun hr => h (List.mem_cons_of_mem c hr)
    unfold pySplit
    rw [if_neg hc, ih hr]

theorem getLastD_of_ne_nil {α : Type} (l : List α) (d d' : α) (h : l ≠ []) :
    l.getLastD d = l.getLastD d' := by
  have hs : l.getLast?.isSome := List.getLast?_isSome.mpr h
  obtain ⟨x, hx⟩ := Option.isSome_iff_exists.mp hs
  simp [List.getLastD_eq_getLast?, hx]

theorem takeWhile_append_of_all {p : Char → Bool} (l₁ l₂ : List Char)
    (h : l₁.all p = true) :
    (l₁ ++ l₂).takeWhile p = l₁ ++ l₂.takeWhile p := by
  induction l₁ with
  | nil => simp
  | cons c t ih =>
    simp only [List.all_cons, Bool.and_eq_true] at h
    simp [List.takeWhile_cons, h.1, ih h.2]

theorem takeWhile_append_of_not_all {p : Char → Bool} (l₁ l₂ : List Char)
    (h : l₁.all p = false) :
    (l₁ ++ l₂).takeWhile p = l₁.takeWhile p := by
  induction l₁ with
  | nil => simp at h
  | cons c t ih =>
    simp only [List.all_cons] at h
    by_cases hc : p c
    · simp only [hc, Bool.true_and] at h
      simp [List.takeWhile_cons, hc, ih h]
    · simp [List.takeWhile_cons, hc]

theorem afterLastCR_cons (c : Char) (rest : List Char) :
    afterLastCR (c :: rest) =
      if '\r' ∈ rest then afterLastCR rest
      else if c = '\r' then rest
      else c :: rest := by
  unfold afterLastCR
  rw [List.reverse_cons]
  by_cases hmem : '\r' ∈ rest
  · have hall : rest.reverse.all (· ≠ '\r') = false := by
      rw [Bool.eq_false_iff]
      intro hall
      rw [List.all_eq_true] at hall
      have := hall '\r' (List.mem_reverse.mpr hmem)
      simp at this
    rw [takeWhile_append_of_not_all _ _ hall, if_pos hmem]
  · have hall : rest.reverse.all (· ≠ '\r') = true := by
      rw [List.all_eq_true]
      intro x hx
      have : x ∈ rest := List.mem_reverse.mp hx
      simp only [decide_eq_true_eq]
      exact fun hxr => hmem (hxr ▸ this)
    rw [takeWhile_append_of_all _ _ hall, if_neg hmem]
    by_cases hc : c = '\r'
    · simp [List.takeWhile_cons, hc]
    · simp [List.takeWhile_cons, hc]

theorem afterLastCR_not_mem (l : List Char) (h : '\r' ∉ l) :
    afterLastCR l = l := by
  unfold afterLastCR
  have hall : l.reverse.all (· ≠ '\r') = true := by
    rw [List.all_eq_true]
    intro x hx
    simp only [decide_eq_true_eq]
    exact fun hxr => h (hxr ▸ List.mem_reverse.mp hx)
  rw [List.takeWhile_eq_self_iff.mpr ?_, List.reverse_reverse]
  intro x hx
  exact (List.all_eq_true.mp hall) x hx

theorem pySplit_two_le_of_mem (sep : Char) (l : List Char) (h : sep ∈ l) :
    2 ≤ (pySplit sep l).length := by
  induction l with
  | nil => cases h
  | cons c rest ih =>
    unfold pySplit
    by_cases hc : c = sep
    · rw [if_pos hc]
      have h1 : 1 ≤ (pySplit sep rest).length :=
        List.length_pos.mpr (pySplit_ne_nil sep rest)
      simpa using h1
    · rw [if_neg hc]
      have hmem : sep ∈ rest := by
        rcases List.mem_cons.mp h with h1 | h1
        · exact absurd h1.symm hc
        · exact h1
      rcases hsp : pySplit sep rest with _ | ⟨f, r⟩
      · exact absurd hsp (pySplit_ne_nil sep rest)
      · have h2 := ih hmem
        rw [hsp] at h2
        simpa using h2

theorem pySplit_getLastD_CR (l : List Char) :
    (pySplit '\r' l).getLastD [] = afterLastCR l := by
  induction l with
  | nil => rfl
  | cons c rest ih =>
    rw [afterLastCR_cons]
    unfold pySplit
    by_cases hc : c = '\r'
    · rw [if_pos hc]
      rw [List.getLastD_cons,
        getLastD_of_ne_nil _ _ [] (pySplit_ne_nil '\r' rest), ih]
      by_cases hmem : '\r' ∈ rest
      · rw [if_pos hmem]
      · rw [if_neg hmem, if_pos hc, afterLastCR_not_mem rest hmem]
    · rw [if_neg hc]
      rcases hsp : pySplit '\r' rest with _ | ⟨f, r⟩
      · exact absurd hsp (pySplit_ne_nil '\r' rest)
      · rcases hr : r with _ | ⟨g, s⟩
        · have hmem : '\r' ∉ rest := by
            intro hmem
            have h2 := pySplit_two_le_of_mem '\r' rest hmem
            rw [hsp, hr] at h2
            simp at h2
          have hf : f = rest := by
            have := pySplit_of_not_mem '\r' rest hmem
            rw [hsp, hr] at this
            exact (List.cons.injEq _ _ _ _ ▸ this).1
          subst hr
          rw [if_neg hmem, if_neg hc, hf]
          rfl
        · have hmem : '\r' ∈ rest := by
            by_contra hmem
            have := pySplit_of_not_mem '\r' rest hmem
            rw [hsp, hr] at this
            simp at this
          subst hr
          rw [if_pos hmem, ← ih, hsp]
          simp only [List.getLastD_cons]

theorem pySplit_headD (sep : Char) (l : List Char) :
    (pySplit sep l).headD [] = l.takeWhile (· ≠ sep) := by
  induction l with
  | nil => rfl
  | cons c rest ih =>
    unfold pySplit
    by_cases hc : c = sep
    · simp [hc, List.takeWhile_cons]
    · rcases hsp : pySplit sep rest with _ | ⟨f, r⟩
      · exact absurd hsp (pySplit_ne_nil sep rest)
      · rw [hsp] at ih
        simp only [List.headD_cons] at ih
        simp only [decide_not] at ih
        simp [hc, List.takeWhile_cons, if_neg hc, decide_not, ← ih]

theorem pyStrip_part_of (s : List Char) :
    ∃ pre suf, pre ++ pyStrip s ++ suf = s := by
  refine ⟨s.takeWhile isPySpace,
    ((s.dropWhile isPySpace).reverse.takeWhile isPySpace).reverse, ?_⟩
  conv_rhs => rw [← List.takeWhile_append_dropWhile (p := isPySpace) (l := s)]
  rw [List.append_assoc]
  congr 1
  unfold pyStrip
  rw [← List.reverse_append, List.takeWhile_append_dropWhile,
    List.reverse_reverse]

theorem mem_afterLastCR_ne_CR (s : List Char) (x : Char)
    (hx : x ∈ afterLastCR s) : x ≠ '\r' := by
  unfold afterLastCR at hx
  have hx2 := List.mem_reverse.mp hx
  have := List.mem_takeWhile_imp hx2
  simpa using this

/-! Theorems for the claims. -/

/-- Claim C3: for every exit status `n` and flag `ignore_errors`, a
non-zero status with `ignore_errors = false` raises
`CalledProcessError` carrying `"snapraid " ++ command` and `n`; with
`ignore_errors = true` the same status returns the captured lines; a zero
status returns the lines in either case. -/
theorem snapraid_command_exit_status (command : String) (n : Int)
    (out : List (List Char)) :
    (n ≠ 0 → snapraid_command command false (.completed n out)
        = .exn (.calledProcessError ("snapraid " ++ command) n))
    ∧ snapraid_command command true (.completed n out) = .lines out
    ∧ snapraid_command command false (.completed 0 out) = .lines out := by
  refine ⟨fun h => ?_, ?_, ?_⟩
  · simp [snapraid_command, h]
  · simp [snapraid_command]
  · simp [snapraid_command]

/-- Witness for Claim C3 at exit status 3. -/
theorem snapraid_command_exit_status_witness :
    snapraid_command "sync" false (.completed 3 [])
        = .exn (.calledProcessError "snapraid sync" 3)
    ∧ snapraid_command "sync" true (.completed 3 ["line".toList])
        = .lines ["line".toList]
    ∧ snapraid_command "sync" false (.completed 0 ["line".toList])
        = .lines ["line".toList] :=
  ⟨(snapraid_command_exit_status "sync" 3 []).1 (by decide),
   (snapraid_command_exit_status "sync" 3 ["line".toList]).2.1,
   (snapraid_command_exit_status "sync" 0 ["line".toList]).2.2⟩

/-- Claim C4 fails as stated: the source classifies by
`line.split(" ")[0]`, the first SPACE-delimited field, not the first
whitespace-delimited token. On the line `"add\tx"` the first
whitespace-delimited token is `add`, so the claim demands `add = 1`, but
the code counts the whole line as an unknown category and yields all-zero
counts. -/
theorem classify_whitespace_counterexample :
    specClassify ["add\tx".toList] ≠ classify ["add\tx".toList]
    ∧ specFirstToken "add\tx".toList = "add".toList
    ∧ classify ["add\tx".toList] = ⟨0, 0, 0, 0⟩ := by
  refine ⟨by decide, by decide, by decide⟩

/-- Claim C4 (amended): the classifier takes the first SPACE-delimited
field of each line (the text before the first `' '`) as its category and
counts occurrences per category, always producing exactly the four keys
with default zero; lines whose leading field is outside the set affect no
count; `classify [] = 0` everywhere and the `add a / add b / remove c`
example counts `(2, 1, 0, 0)`. -/
theorem classify_space_delimited (lines : List (List Char)) :
    classify lines =
      ⟨lines.countP (fun l => firstField l == "add".toList),
       lines.countP (fun l => firstField l == "remove".toList),
       lines.countP (fun l => firstField l == "move".toList),
       lines.countP (fun l => firstField l == "update".toList)⟩
    ∧ (∀ l : List Char, firstField l = l.takeWhile (· ≠ ' '))
    ∧ (∀ (l : List Char) (rest : List (List Char)),
        firstField l ∉ ["add".toList, "remove".toList, "move".toList,
          "update".toList] →
        classify (l :: rest) = classify rest)
    ∧ classify [] = ⟨0, 0, 0, 0⟩
    ∧ classify ["add a".toList, "add b".toList, "remove c".toList]
        = ⟨2, 1, 0, 0⟩ := by
  refine ⟨?_, fun l => pySplit_headD ' ' l, fun l rest h => ?_, by decide, by decide⟩
  · simp [classify, counter, List.count, List.countP_map, Function.comp_def]
  · simp only [List.mem_cons, not_or] at h
    obtain ⟨h1, h2, h3, h4, -⟩ := h
    simp_all [classify, counter, List.count_cons]

/-- Witness for Claim C4 (amended): a line with an unrecognized leading
field does not change the counts. -/
theorem classify_space_delimited_witness :
    classify ["summary 12 files".toList, "add a".toList]
      = classify ["add a".toList] :=
  (classify_space_delimited []).2.2.1 "summary 12 files".toList
    ["add a".toList] (by decide)

/-- Claim C6: `finish(success)` exits with status 0 when `success` is true
and 1 when it is false, independently of the notification attempt's
outcome; an exception from `send_email` is caught and logged (exactly when
a send was attempted and raised), changing neither the exit status nor the
recorded outcome. -/
theorem finish_exit_code (is_success : Bool) (sendon : List Char)
    (emailOutcome : EmailOutcome) :
    (finish is_success sendon emailOutcome).exitCode
        = (if is_success then 0 else 1)
    ∧ (finish is_success sendon emailOutcome).emailFailureLogged
        = (containsSub sendon
            (if is_success then "success".toList else "error".toList)
           && decide (emailOutcome = .raisedExn)) := by
  cases emailOutcome <;> simp [finish]

/-- Claim C8: the effective log-rotation cap is
`min(configured maxsize, 0) * 1024`, hence 0 for every non-negative
configured value. -/
theorem max_log_size_clamped (maxsize : Int) :
    max_log_size maxsize = min maxsize 0 * 1024
    ∧ (0 ≤ maxsize → max_log_size maxsize = 0) := by
  refine ⟨rfl, fun h => ?_⟩
  unfold max_log_size
  rw [min_eq_right h, zero_mul]

/-- Witness for Claim C8 at a configured maxsize of 500. -/
theorem max_log_size_clamped_witness : max_log_size 500 = 0 :=
  (max_log_size_clamped 500).2 (by decide)

/-- Claim C10: after `snapraid_command` builds its argument vector, the
caller's list has the executable and command name prepended and
`--conf <config> --verbose` appended, so passing one list through two
calls compounds both decorations. -/
theorem snapraid_args_in_place (executable conf command : String)
    (args : List String) :
    snapraid_args executable conf command args
        = executable :: command :: (args ++ ["--conf", conf, "--verbose"])
    ∧ (∀ command2, snapraid_args executable conf command2
          (snapraid_args executable conf command args)
        = executable :: command2 :: executable :: command ::
            (args ++ ["--conf", conf, "--verbose",
                      "--conf", conf, "--verbose"])) := by
  refine ⟨rfl, fun command2 => ?_⟩
  show executable :: command2 ::
      ((executable :: command :: (args ++ ["--conf", conf, "--verbose"]))
        ++ ["--conf", conf, "--verbose"]) = _
  simp [List.append_assoc]

/-- Claim C9: for a stream line whose stripped content still embeds
carriage returns, both the logged line and the accumulated line are built
from the text following the last carriage return alone: the accumulated
line is exactly that text, the logged line is its stripped form (hence a
piece of it), and no carriage return survives. -/
theorem tee_progress_stripping (raw : List Char)
    (h : '\r' ∈ pyStrip raw) :
    (tee_line raw).accumulated = afterLastCR (pyStrip raw)
    ∧ (tee_line raw).logged = pyStrip (afterLastCR (pyStrip raw))
    ∧ (∃ pre suf, pre ++ (tee_line raw).logged ++ suf
        = afterLastCR (pyStrip raw))
    ∧ '\r' ∉ (tee_line raw).accumulated := by
  have hcont : (pyStrip raw).contains '\r' = true := by
    simpa [List.contains] using h
  have hacc : (tee_line raw).accumulated = afterLastCR (pyStrip raw) := by
    simp only [tee_line, hcont, if_true]
    exact pySplit_getLastD_CR (pyStrip raw)
  have hlog : (tee_line raw).logged = pyStrip (afterLastCR (pyStrip raw)) := by
    simp only [tee_line, hcont, if_true]
    rw [pySplit_getLastD_CR (pyStrip raw)]
  refine ⟨hacc, hlog, ?_, ?_⟩
  · obtain ⟨pre, suf, hps⟩ := pyStrip_part_of (afterLastCR (pyStrip raw))
    exact ⟨pre, suf, by rw [hlog]; exact hps⟩
  · rw [hacc]
    intro hx
    exact mem_afterLastCR_ne_CR _ _ hx rfl

/-- Witness for Claim C9 on the line `"p1\rp2\rfinal\n"`. -/
theorem tee_progress_stripping_witness :
    (tee_line "p1\rp2\rfinal\n".toList).accumulated
      = afterLastCR (pyStrip "p1\rp2\rfinal\n".toList) :=
  (tee_progress_stripping "p1\rp2\rfinal\n".toList (by decide)).1

theorem runScrub_gateAborted (cfg : SnapraidConfig) (env : Env)
    (inv : List String) : (runScrub cfg env inv).gateAborted = false := by
  unfold runScrub
  split
  · split <;> rfl
  · rfl

theorem runScrub_invoked (cfg : SnapraidConfig) (env : Env)
    (inv : List String) :
    (runScrub cfg env inv).invoked = inv
    ∨ (runScrub cfg env inv).invoked = inv ++ ["scrub"] := by
  unfold runScrub
  split
  · split <;> exact Or.inr rfl
  · exact Or.inl rfl

theorem runScrub_result_true_iff (cfg : SnapraidConfig) (env : Env)
    (inv : List String) :
    ((runScrub cfg env inv).result = .finishedWith true) ↔
      (cfg.scrubEnabled = true → outcomeOk env.scrubOutcome = true) := by
  unfold runScrub
  cases hsc : cfg.scrubEnabled with
  | false => simp
  | true =>
    cases hso : env.scrubOutcome with
    | completed ret outl =>
      by_cases hr : ret = 0
      · subst hr
        simp [phaseStepCaught, snapraid_command, outcomeOk]
      · simp [phaseStepCaught, snapraid_command, hr, outcomeOk]
    | fileNotFound => simp [phaseStepCaught, snapraid_command, outcomeOk]
    | otherExn => simp [phaseStepCaught, snapraid_command, outcomeOk]

theorem phaseStep_diff_completed (r : Int) (out : List (List Char)) :
    phaseStep "diff" true (.completed r out) = .ok out := by
  simp [phaseStep, snapraid_command]

theorem runFromDiff_gate_abort (cfg : SnapraidConfig) (env : Env)
    (inv : List String) (r : Int) (out : List (List Char))
    (hdiff : env.diffOutcome = .completed r out)
    (hg : 0 ≤ cfg.deletethreshold
      ∧ cfg.deletethreshold < ((classify out).remove : Int)) :
    runFromDiff cfg env inv = ⟨inv ++ ["diff"], true, .finishedWith false⟩ := by
  unfold runFromDiff
  rw [hdiff, phaseStep_diff_completed]
  simp only [if_pos hg]

theorem runFromDiff_no_gate_skip (cfg : SnapraidConfig) (env : Env)
    (inv : List String) (r : Int) (out : List (List Char))
    (hdiff : env.diffOutcome = .completed r out)
    (hg : ¬ (0 ≤ cfg.deletethreshold
      ∧ cfg.deletethreshold < ((classify out).remove : Int)))
    (hz : (classify out).remove + (classify out).add + (classify out).move
      + (classify out).update = 0) :
    runFromDiff cfg env inv = runScrub cfg env (inv ++ ["diff"]) := by
  unfold runFromDiff
  rw [hdiff, phaseStep_diff_completed]
  simp only [if_neg hg, if_pos hz]

theorem runFromDiff_no_gate_sync (cfg : SnapraidConfig) (env : Env)
    (inv : List String) (r : Int) (out : List (List Char))
    (hdiff : env.diffOutcome = .completed r out)
    (hg : ¬ (0 ≤ cfg.deletethreshold
      ∧ cfg.deletethreshold < ((classify out).remove : Int)))
    (hz : ¬ ((classify out).remove + (classify out).add + (classify out).move
      + (classify out).update = 0)) :
    runFromDiff cfg env inv =
      (match phaseStepCaught "sync" env.syncOutcome with
       | .error rr => ⟨(inv ++ ["diff"]) ++ ["sync"], false, rr⟩
       | .ok _ => runScrub cfg env ((inv ++ ["diff"]) ++ ["sync"])) := by
  unfold runFromDiff
  rw [hdiff, phaseStep_diff_completed]
  simp only [if_neg hg, if_neg hz]

theorem run_touch_off (cfg : SnapraidConfig) (env : Env)
    (hconf : cfg.configIsFile = true) (htouch : cfg.touch = false) :
    run cfg env = runFromDiff cfg env [] := by
  unfold run
  rw [hconf, htouch]
  simp

theorem run_gateAborted_eq (cfg : SnapraidConfig) (env : Env) (r : Int)
    (out : List (List Char))
    (hconf : cfg.configIsFile = true) (htouch : cfg.touch = false)
    (hdiff : env.diffOutcome = .completed r out) :
    (run cfg env).gateAborted = gateTrips cfg.deletethreshold (classify out) := by
  rw [run_touch_off cfg env hconf htouch]
  by_cases hg : 0 ≤ cfg.deletethreshold
      ∧ cfg.deletethreshold < ((classify out).remove : Int)
  · rw [runFromDiff_gate_abort cfg env [] r out hdiff hg]
    simp [gateTrips, hg]
  · have hgt : gateTrips cfg.deletethreshold (classify out) = false := by
      simp only [gateTrips, decide_eq_false_iff_not]
      exact hg
    rw [hgt]
    by_cases hz : (classify out).remove + (classify out).add
        + (classify out).move + (classify out).update = 0
    · rw [runFromDiff_no_gate_skip cfg env [] r out hdiff hg hz]
      exact runScrub_gateAborted cfg env _
    · rw [runFromDiff_no_gate_sync cfg env [] r out hdiff hg hz]
      cases hps : phaseStepCaught "sync" env.syncOutcome with
      | error rr => simp [hps]
      | ok lns => simp [hps, runScrub_gateAborted]

/-- Claim C1: with the snapraid config present, touch disabled and the
diff subprocess completing with lines `out`: a non-negative delete
threshold strictly below the classified remove count aborts the run as
failed with sync never invoked; with threshold -1 the gate never aborts;
with all four counts zero sync is never invoked; otherwise (no gate
abort, some count non-zero) sync is invoked exactly once. -/
theorem gate_policy_after_diff (cfg : SnapraidConfig) (env : Env) (r : Int)
    (out : List (List Char))
    (hconf : cfg.configIsFile = true) (htouch : cfg.touch = false)
    (hdiff : env.diffOutcome = .completed r out) :
    (0 ≤ cfg.deletethreshold →
      cfg.deletethreshold < ((classify out).remove : Int) →
      "sync" ∉ (run cfg env).invoked
        ∧ (run cfg env).gateAborted = true
        ∧ (run cfg env).result = .finishedWith false)
    ∧ (cfg.deletethreshold = -1 → (run cfg env).gateAborted = false)
    ∧ ((classify out).add = 0 ∧ (classify out).remove = 0
        ∧ (classify out).move = 0 ∧ (classify out).update = 0 →
        "sync" ∉ (run cfg env).invoked)
    ∧ (¬ (0 ≤ cfg.deletethreshold
          ∧ cfg.deletethreshold < ((classify out).remove : Int)) →
        (classify out).remove + (classify out).add + (classify out).move
          + (classify out).update ≠ 0 →
        (run cfg env).invoked.count "sync" = 1) := by
  have hrun := run_touch_off cfg env hconf htouch
  refine ⟨fun h1 h2 => ?_, fun hneg => ?_, fun hz => ?_, fun hg hnz => ?_⟩
  · rw [hrun, runFromDiff_gate_abort cfg env [] r out hdiff ⟨h1, h2⟩]
    exact ⟨by decide, rfl, rfl⟩
  · rw [run_gateAborted_eq cfg env r out hconf htouch hdiff, hneg]
    simp only [gateTrips, decide_eq_false_iff_not]
    intro hcontr
    exact absurd hcontr.1 (by decide)
  · obtain ⟨hza, hzr, hzm, hzu⟩ := hz
    have hg : ¬ (0 ≤ cfg.deletethreshold
        ∧ cfg.deletethreshold < ((classify out).remove : Int)) := by
      rw [hzr]
      intro hcontr
      have h1 := hcontr.1
      have h2 := hcontr.2
      simp only [Nat.cast_zero] at h2
      omega
    have hzsum : (classify out).remove + (classify out).add
        + (classify out).move + (classify out).update = 0 := by
      omega
    rw [hrun, runFromDiff_no_gate_skip cfg env [] r out hdiff hg hzsum]
    rcases runScrub_invoked cfg env (([] : List String) ++ ["diff"]) with hi | hi <;>
      rw [hi] <;> decide
  · rw [hrun, runFromDiff_no_gate_sync cfg env [] r out hdiff hg hnz]
    cases hps : phaseStepCaught "sync" env.syncOutcome with
    | error rr =>
      show List.count "sync" ((([] : List String) ++ ["diff"]) ++ ["sync"]) = 1
      decide
    | ok lns =>
      rcases runScrub_invoked cfg env
        ((([] : List String) ++ ["diff"]) ++ ["sync"]) with hi | hi <;>
        rw [hi] <;> decide

/-- Witness for Claim C1: threshold 5 with 6 removed files aborts before
sync. -/
theorem gate_policy_after_diff_witness :
    "sync" ∉ (run ⟨true, false, 5, false⟩
        ⟨.completed 0 [], .completed 0 ["remove a".toList,
          "remove b".toList, "remove c".toList, "remove d".toList,
          "remove e".toList, "remove f".toList],
         .completed 0 [], .completed 0 []⟩).invoked
    ∧ (run ⟨true, false, 5, false⟩
        ⟨.completed 0 [], .completed 0 ["remove a".toList,
          "remove b".toList, "remove c".toList, "remove d".toList,
          "remove e".toList, "remove f".toList],
         .completed 0 [], .completed 0 []⟩).gateAborted = true
    ∧ (run ⟨true, false, 5, false⟩
        ⟨.completed 0 [], .completed 0 ["remove a".toList,
          "remove b".toList, "remove c".toList, "remove d".toList,
          "remove e".toList, "remove f".toList],
         .completed 0 [], .completed 0 []⟩).result = .finishedWith false :=
  (gate_policy_after_diff ⟨true, false, 5, false⟩
      ⟨.completed 0 [], .completed 0 ["remove a".toList,
        "remove b".toList, "remove c".toList, "remove d".toList,
        "remove e".toList, "remove f".toList],
       .completed 0 [], .completed 0 []⟩ 0
      ["remove a".toList, "remove b".toList, "remove c".toList,
       "remove d".toList, "remove e".toList, "remove f".toList]
      rfl rfl rfl).1 (by decide) (by decide)

/-- Claim C7 fails as stated: an ABSENT delete threshold does not disable
the gate. `load_config` reads an absent option as the empty string,
`int("")` raises `ValueError`, and the handler stores 0 — a threshold of 0,
which aborts the run on a single removed file. -/
theorem delete_threshold_absent_counterexample :
    load_int_option "".toList = 0
    ∧ (run ⟨true, false, load_int_option "".toList, false⟩
        ⟨.completed 0 [], .completed 0 ["remove a".toList],
         .completed 0 [], .completed 0 []⟩).gateAborted = true
    ∧ (run ⟨true, false, load_int_option "".toList, false⟩
        ⟨.completed 0 [], .completed 0 ["remove a".toList],
         .completed 0 [], .completed 0 []⟩).result
        = .finishedWith false := by
  exact ⟨by decide, by decide, by decide⟩

/-- Claim C7 (amended): a NEGATIVE delete threshold disables the gate (no
abort on the delete-threshold basis for any remove count); an ABSENT
threshold is parsed as 0 by `load_config`, and the run then aborts on that
basis exactly when the classified remove count is positive. -/
theorem delete_threshold_gate (cfg : SnapraidConfig) (env : Env) (r : Int)
    (out : List (List Char))
    (hconf : cfg.configIsFile = true) (htouch : cfg.touch = false)
    (hdiff : env.diffOutcome = .completed r out) :
    (cfg.deletethreshold < 0 → (run cfg env).gateAborted = false)
    ∧ (cfg.deletethreshold = load_int_option "".toList →
        ((run cfg env).gateAborted = true ↔ 0 < (classify out).remove)) := by
  have habsent : load_int_option "".toList = 0 := by decide
  refine ⟨fun hneg => ?_, fun habs => ?_⟩
  · rw [run_gateAborted_eq cfg env r out hconf htouch hdiff]
    simp only [gateTrips, decide_eq_false_iff_not]
    intro hcontr
    exact absurd hneg (not_lt.mpr hcontr.1)
  · rw [run_gateAborted_eq cfg env r out hconf htouch hdiff, habs, habsent]
    simp [gateTrips]

/-- Witness for Claim C7 (amended): threshold -1 with one removed file
does not trip the gate. -/
theorem delete_threshold_gate_witness :
    (run ⟨true, false, -1, false⟩
      ⟨.completed 0 [], .completed 0 ["remove a".toList],
       .completed 0 [], .completed 0 []⟩).gateAborted = false :=
  (delete_threshold_gate ⟨true, false, -1, false⟩
      ⟨.completed 0 [], .completed 0 ["remove a".toList],
       .completed 0 [], .completed 0 []⟩ 0 ["remove a".toList]
      rfl rfl rfl).1 (by decide)

theorem runFromDiff_result_true_iff (cfg : SnapraidConfig) (env : Env)
    (inv : List String) :
    ((runFromDiff cfg env inv).result = .finishedWith true) ↔
      (diffCompleted env.diffOutcome = true
       ∧ gateTrips cfg.deletethreshold (classify (diffLines env.diffOutcome))
           = false
       ∧ (syncNeeded (classify (diffLines env.diffOutcome)) = true →
            outcomeOk env.syncOutcome = true)
       ∧ (cfg.scrubEnabled = true → outcomeOk env.scrubOutcome = true)) := by
  cases hdo : env.diffOutcome with
  | fileNotFound =>
    simp [runFromDiff, phaseStep, snapraid_command, diffCompleted, hdo]
  | otherExn =>
    simp [runFromDiff, phaseStep, snapraid_command, diffCompleted, hdo]
  | completed r out =>
    simp only [diffCompleted, diffLines]
    by_cases hg : 0 ≤ cfg.deletethreshold
        ∧ cfg.deletethreshold < ((classify out).remove : Int)
    · rw [runFromDiff_gate_abort cfg env inv r out hdo hg]
      simp [gateTrips, hg]
    · have hgt : gateTrips cfg.deletethreshold (classify out) = false := by
        simp only [gateTrips, decide_eq_false_iff_not]
        exact hg
      by_cases hz : (classify out).remove + (classify out).add
          + (classify out).move + (classify out).update = 0
      · have hsn : syncNeeded (classify out) = false := by
          simp [syncNeeded, hz]
        rw [runFromDiff_no_gate_skip cfg env inv r out hdo hg hz,
          runScrub_result_true_iff]
        simp [hgt, hsn]
      · have hsn : syncNeeded (classify out) = true := by
          simp [syncNeeded, hz]
        rw [runFromDiff_no_gate_sync cfg env inv r out hdo hg hz]
        cases hso : env.syncOutcome with
        | completed rs outs =>
          by_cases hrs : rs = 0
          · subst hrs
            simp [phaseStepCaught, snapraid_command,
              runScrub_result_true_iff, hgt, hsn, outcomeOk]
          · simp [phaseStepCaught, snapraid_command, hrs, hgt, hsn,
              outcomeOk]
        | fileNotFound =>
          simp [phaseStepCaught, snapraid_command, hgt, hsn, outcomeOk]
        | otherExn =>
          simp [phaseStepCaught, snapraid_command, hgt, hsn, outcomeOk]

theorem bool_imp_iff (b : Bool) (P : Prop) :
    (b = true → P) ↔ (b = false ∨ P) := by
  cases b <;> simp

theorem run_result_true_iff (cfg : SnapraidConfig) (env : Env) :
    ((run cfg env).result = .finishedWith true) ↔ noFatal cfg env = true := by
  unfold run noFatal
  cases hcf : cfg.configIsFile with
  | false => simp
  | true =>
    cases ht : cfg.touch with
    | false =>
      rw [if_neg (by simp), if_neg (by simp),
        runFromDiff_result_true_iff cfg env []]
      simp only [Bool.true_and, Bool.not_false, Bool.true_or,
        Bool.and_eq_true, Bool.or_eq_true, Bool.not_eq_true', bool_imp_iff]
      tauto
    | true =>
      cases hto : env.touchOutcome with
      | completed rt outt =>
        by_cases hrt : rt = 0
        · subst hrt
          have hstep : phaseStep "touch" false (.completed 0 outt)
              = .ok outt := by
            simp [phaseStep, snapraid_command]
          rw [if_neg (by simp), if_pos rfl]
          simp only [hstep]
          rw [runFromDiff_result_true_iff cfg env ["touch"]]
          simp only [outcomeOk, decide_true_eq_true, Bool.true_and,
            Bool.not_true, Bool.false_or, Bool.and_eq_true, Bool.or_eq_true,
            Bool.not_eq_true', bool_imp_iff, decide_eq_true_eq]
          tauto
        · simp [phaseStep, snapraid_command, hrt, outcomeOk]
      | fileNotFound =>
        simp [phaseStep, snapraid_command, outcomeOk]
      | otherExn =>
        simp [phaseStep, snapraid_command, outcomeOk]

/-- Claim C2: for every configuration and sequence of phase outcomes —
including spawn failures and exceptions not anticipated by the phase
contracts — the whole program performs exactly one `finish(...)` call, and
that call receives `True` exactly when no fatal condition occurred. -/
theorem finalizer_called_exactly_once (cfg : SnapraidConfig) (env : Env) :
    (mainFinishCalls cfg env).length = 1
    ∧ (mainFinishCalls cfg env = [true] ↔ noFatal cfg env = true) := by
  constructor
  · unfold mainFinishCalls
    cases hres : (run cfg env).result <;> rfl
  · rw [← run_result_true_iff cfg env]
    unfold mainFinishCalls
    cases hres : (run cfg env).result with
    | finishedWith b => cases b <;> simp [hres]
    | raised e => simp [hres]

theorem flatten_replicate_length (n : Nat) (l : List Char) :
    ((List.replicate n l).flatten).length = n * l.length := by
  rw [List.length_flatten, List.map_replicate]
  simp [List.sum_replicate, smul_eq_mul]

theorem take_flatten_replicate (k n : Nat) (l : List Char) (h : k ≤ n) :
    ((List.replicate n l).flatten).take (k * l.length)
      = (List.replicate k l).flatten := by
  induction k generalizing n with
  | zero => simp
  | succ k ih =>
    cases n with
    | zero => omega
    | succ m =>
      rw [List.replicate_succ, List.flatten_cons, List.replicate_succ,
        List.flatten_cons,
        show (k + 1) * l.length = l.length + k * l.length by ring,
        List.take_append, ih m (by omega)]

theorem drop_flatten_replicate (k n : Nat) (l : List Char) (h : k ≤ n) :
    ((List.replicate n l).flatten).drop (k * l.length)
      = (List.replicate (n - k) l).flatten := by
  induction k generalizing n with
  | zero => simp
  | succ k ih =>
    cases n with
    | zero => omega
    | succ m =>
      rw [List.replicate_succ, List.flatten_cons,
        show (k + 1) * l.length = l.length + k * l.length by ring,
        List.drop_append, ih m (by omega), Nat.succ_sub_succ]

theorem count_flatten_replicate (n : Nat) (l : List Char) (c : Char) :
    ((List.replicate n l).flatten).count c = n * l.count c := by
  induction n with
  | zero => simp
  | succ m ih =>
    rw [List.replicate_succ, List.flatten_cons, List.count_append, ih]
    ring

/-- Claim C5: for every non-zero configured limit and every transcript
longer than it, the notification body is the outcome banner followed by
the transcript truncated from the middle: equal-sized head and tail
segments (each `maxsize/2` characters, the transcript's own first and
last characters — their concatenation around the elided middle restores
the transcript) with a marker between them naming the newline count of
exactly that elided middle. In the concrete instance of a transcript of
10000 uniform lines and a limit amounting to 100 lines, the result is
exactly 50 head lines, a marker naming 9900 removed lines, and 50 tail
lines. -/
theorem email_truncation_middle (kb : Nat) (log : List Char)
    (hkb : kb ≠ 0) (hbig : kb * 1024 < log.length) :
    (∃ middle : List Char,
      truncate_email_log (kb * 1024) log
        = emailHeader ++ log.take (kb * 512)
          ++ markerPre ++ natDigits (countNl middle) ++ markerPost
          ++ log.drop (log.length - kb * 512)
      ∧ log.take (kb * 512) ++ middle ++ log.drop (log.length - kb * 512)
          = log
      ∧ (log.take (kb * 512)).length = kb * 512
      ∧ (log.drop (log.length - kb * 512)).length = kb * 512)
    ∧ (∀ success : Bool, send_email_body success kb log
        = (if success then
            "SnapRAID job completed successfully:\n\n\n".toList
           else "Error during SnapRAID job:\n\n\n".toList)
          ++ truncate_email_log (kb * 1024) log)
    ∧ (∀ (l : List Char) (lineLen : Nat), '\n' ∉ l →
        l.length + 1 = lineLen → kb * 1024 = 100 * lineLen →
        log = (List.replicate 10000 (l ++ ['\n'])).flatten →
        truncate_email_log (kb * 1024) log
          = emailHeader ++ (List.replicate 50 (l ++ ['\n'])).flatten
            ++ markerPre ++ natDigits 9900 ++ markerPost
            ++ (List.replicate 50 (l ++ ['\n'])).flatten) := by
  have hne : kb * 1024 ≠ 0 := Nat.mul_ne_zero hkb (by norm_num)
  have hcond : kb * 1024 ≠ 0 ∧ kb * 1024 < log.length := ⟨hne, hbig⟩
  have ha : kb * 1024 / 2 = kb * 512 := by
    rw [show kb * 1024 = 2 * (kb * 512) by ring,
      Nat.mul_div_cancel_left _ two_pos]
  have ha2 : (kb * 1024 + 1) / 2 = kb * 512 := by
    rw [show kb * 1024 + 1 = 2 * (kb * 512) + 1 by ring,
      Nat.mul_add_div two_pos]
    norm_num
  have hle : kb * 512 + kb * 512 ≤ log.length := by
    have h1 : kb * 512 + kb * 512 = kb * 1024 := by ring
    omega
  have hunfold : truncate_email_log (kb * 1024) log
      = emailHeader ++ log.take (kb * 512)
        ++ markerPre
        ++ natDigits (countNl ((log.drop (kb * 512)).take
            (log.length - kb * 512 - kb * 512)))
        ++ markerPost ++ log.drop (log.length - kb * 512) := by
    unfold truncate_email_log
    rw [if_pos hcond]
    simp only [ha, ha2]
  refine ⟨⟨(log.drop (kb * 512)).take (log.length - kb * 512 - kb * 512),
    hunfold, ?_, ?_, ?_⟩, fun success => rfl, ?_⟩
  · have hdd : (log.drop (kb * 512)).drop
        (log.length - kb * 512 - kb * 512)
        = log.drop (log.length - kb * 512) := by
      rw [List.drop_drop]
      congr 1
      omega
    rw [← hdd, List.append_assoc, List.take_append_drop,
      List.take_append_drop]
  · rw [List.length_take]
    exact min_eq_left (by omega)
  · rw [List.length_drop]
    omega
  · intro l lineLen hnl hlen hmax hshape
    subst hshape
    have hline : (l ++ ['\n']).length = lineLen := by
      simpa using hlen
    have hpos : 0 < lineLen := by omega
    have hhalf : kb * 512 = 50 * lineLen := by
      have h1 : kb * 512 * 2 = kb * 1024 := by ring
      have h2 : 50 * lineLen * 2 = 100 * lineLen := by ring
      omega
    have hloglen : ((List.replicate 10000 (l ++ ['\n'])).flatten).length
        = 10000 * lineLen := by
      rw [flatten_replicate_length, hline]
    have htake : ((List.replicate 10000 (l ++ ['\n'])).flatten).take
        (50 * lineLen) = (List.replicate 50 (l ++ ['\n'])).flatten := by
      rw [← hline, take_flatten_replicate 50 10000 _ (by omega)]
    have hdrop50 : ((List.replicate 10000 (l ++ ['\n'])).flatten).drop
        (50 * lineLen) = (List.replicate 9950 (l ++ ['\n'])).flatten := by
      rw [← hline, drop_flatten_replicate 50 10000 _ (by omega)]
    have hmidtake : ((List.replicate 9950 (l ++ ['\n'])).flatten).take
        (9900 * lineLen) = (List.replicate 9900 (l ++ ['\n'])).flatten := by
      rw [← hline, take_flatten_replicate 9900 9950 _ (by omega)]
    have hcount : countNl ((List.replicate 9900 (l ++ ['\n'])).flatten)
        = 9900 := by
      unfold countNl
      rw [count_flatten_replicate, List.count_append]
      rw [List.count_eq_zero.mpr hnl]
      simp
    rw [hunfold, hhalf, hloglen,
      show 10000 * lineLen - 50 * lineLen - 50 * lineLen = 9900 * lineLen
        by omega,
      htake, hdrop50, hmidtake, hcount,
      show 10000 * lineLen - 50 * lineLen = 9950 * lineLen by omega,
      ← hline, drop_flatten_replicate 9950 10000 _ (by omega)]

/-- Witness for Claim C5: 10000 lines of 256 characters with a 25 KiB
limit (100 lines kept) truncate to 50 head lines, a 9900-lines-removed
marker, and 50 tail lines. -/
theorem email_truncation_middle_witness :
    truncate_email_log (25 * 1024)
        ((List.replicate 10000 (List.replicate 255 'a' ++ ['\n'])).flatten)
      = emailHeader
        ++ (List.replicate 50 (List.replicate 255 'a' ++ ['\n'])).flatten
        ++ markerPre ++ natDigits 9900 ++ markerPost
        ++ (List.replicate 50 (List.replicate 255 'a' ++ ['\n'])).flatten :=
  (email_truncation_middle 25
      ((List.replicate 10000 (List.replicate 255 'a' ++ ['\n'])).flatten)
      (by norm_num)
      (by rw [flatten_replicate_length, List.length_append,
        List.length_replicate]; norm_num)).2.2
    (List.replicate 255 'a') 256
    (fun h => absurd ((List.mem_replicate.mp h).2) (by decide))
    (by rw [List.length_replicate])
    (by norm_num)
    rfl

end SnapraidRunner
